import Mathlib

/-!
Verification development for the movie-rating-system repository.

The Python service (SQLAlchemy models in app/models/models.py, repositories
in app/repositories/, services in app/services/, FastAPI controllers in
app/controllers/) is shallowly embedded: tables become lists of records in a
`Store`, sessions become explicit store passing, SQL ORDER BY becomes the
deterministic insertion sort `sortLe`, exceptions become an `Err` sum
returned through `Except` (paired with the store where a write path can
leave the store changed before failing).  Timestamps are modelled by a store-level counter
`tick` (only `MovieRating.created_at` is ever used for ordering by the code
under study); the other `created_at` / `updated_at` columns are not modelled
since no studied call path reads them.
-/

namespace MovieApp

/-- Row of the directors table (app/models/models.py, class Director). -/
structure Director where
  id : Nat
  name : String
  birth_year : Option Int
  description : Option String
deriving Repr, DecidableEq

/-- Row of the genres table (app/models/models.py, class Genre). -/
structure Genre where
  id : Nat
  name : String
  description : Option String
deriving Repr, DecidableEq

/-- Row of the movies table (app/models/models.py, class Movie). -/
structure Movie where
  id : Nat
  title : String
  director_id : Option Nat
  release_year : Option Int
  cast : Option String
deriving Repr, DecidableEq

/-- Row of the movie_genres association table (movie_genre_association). -/
structure MovieGenre where
  movie_id : Nat
  genre_id : Nat
deriving Repr, DecidableEq

/-- Row of the movie_ratings table (class MovieRating).  `created_at` is the
value of the store tick at insertion time, standing in for the SQL
`func.now()` default, and is what `ORDER BY created_at` sorts on. -/
structure MovieRating where
  id : Nat
  movie_id : Nat
  score : Int
  created_at : Nat
deriving Repr, DecidableEq

/-- The relational store: one list per table, in storage (insertion) order,
plus the clock used to stamp new ratings. -/
structure Store where
  directors : List Director
  genres : List Genre
  movies : List Movie
  movieGenres : List MovieGenre
  ratings : List MovieRating
  tick : Nat
deriving Repr, DecidableEq

/-- The application's exception taxonomy (app/exceptions/): service errors
NotFoundError / AlreadyExistsError / ValidationError, DatabaseError from the
repositories, plus Python's builtin ValueError (raised by
BaseRepository.get_by_field for an unknown field) and the raw driver
exception a failed commit raises when no handler converts it. -/
inductive Err where
  | notFound (resource id : String)
  | alreadyExists (resource ident : String)
  | validation (field msg : String)
  | databaseError (msg : String)
  | valueError (msg : String)
  | storageFailure (msg : String)
deriving Repr, DecidableEq

/-- Python truthiness of an Optional[str]: None and the empty string are
falsy. -/
def truthyStr : Option String → Bool
  | none => false
  | some s => s ≠ ""

/-- Python truthiness of an Optional[int] id: None and 0 are falsy. -/
def truthyNat : Option Nat → Bool
  | none => false
  | some n => n ≠ 0

/-- Python truthiness of an Optional[int]: None and 0 are falsy. -/
def truthyInt : Option Int → Bool
  | none => false
  | some n => n ≠ 0

/-- Fresh primary key for a table: SQLite assigns max existing id + 1. -/
def freshId (ids : List Nat) : Nat := ids.foldr max 0 + 1

/-- Python str.strip() / SQL-side trimming: ASCII whitespace characters
removed from both ends.  Defined over the character data so that closed
terms evaluate. -/
def isPySpace (c : Char) : Bool :=
  c == ' ' || c == '\t' || c == '\n' || c == '\r' || c.toNat == 11 || c.toNat == 12

/-- Python str.strip(): drop whitespace at both ends. -/
def pyStrip (s : String) : String :=
  ⟨((s.data.dropWhile isPySpace).reverse.dropWhile isPySpace).reverse⟩

/-- Python str.lower() / SQL lower() on the ASCII range. -/
def strLower (s : String) : String := ⟨s.data.map Char.toLower⟩

/-- Code-point lexicographic comparison, the SQLite BINARY collation that
ORDER BY uses on text columns. -/
def charListLe : List Char → List Char → Bool
  | [], _ => true
  | _ :: _, [] => false
  | a :: as, b :: bs =>
    if a.toNat < b.toNat then true
    else if b.toNat < a.toNat then false
    else charListLe as bs

/-- BINARY-collation comparison on strings. -/
def strLeBin (a b : String) : Bool := charListLe a.data b.data

/-- Leading-match test: the first list is an initial segment of the second. -/
def listStartsWith : List Char → List Char → Bool
  | [], _ => true
  | _ :: _, [] => false
  | a :: as, b :: bs => a == b && listStartsWith as bs

/-- Containment of one character list in another at any position. -/
def listContains (pat : List Char) : List Char → Bool
  | [] => pat.isEmpty
  | t@(_ :: rest) => listStartsWith pat t || listContains pat rest

/-- SQL ILIKE percent-pattern containment: case-insensitive substring test. -/
def substrCI (needle hay : String) : Bool :=
  listContains (strLower needle).data (strLower hay).data

/-- Comparison on nullable integers as SQLite ORDER BY sees them: NULL
sorts before every value. -/
def optIntLe : Option Int → Option Int → Bool
  | none, _ => true
  | some _, none => false
  | some a, some b => a ≤ b

/-- BaseRepository.exists for the directors table: first row with the id,
tested for presence. -/
def directorExists (s : Store) (id : Nat) : Bool :=
  s.directors.any (fun d => d.id == id)

/-- BaseRepository.exists for the movies table. -/
def movieExists (s : Store) (id : Nat) : Bool :=
  s.movies.any (fun m => m.id == id)

/-- BaseRepository.exists for the genres table. -/
def genreExists (s : Store) (id : Nat) : Bool :=
  s.genres.any (fun g => g.id == id)

/-- BaseRepository.get for the movie_ratings table. -/
def ratingGet (s : Store) (id : Nat) : Option MovieRating :=
  s.ratings.find? (fun r => r.id == id)

/-- BaseRepository.get for the movies table. -/
def movieGet (s : Store) (id : Nat) : Option Movie :=
  s.movies.find? (fun m => m.id == id)

/-- Attribute-name check behind getattr(Director, field, None): the mapped
columns and relationships of the Director model. -/
def directorHasField : String → Bool
  | "id" | "name" | "birth_year" | "description"
  | "created_at" | "updated_at" | "movies" => true
  | _ => false

/-- Attribute-name check behind getattr(Genre, field, None). -/
def genreHasField : String → Bool
  | "id" | "name" | "description" | "created_at" | "movies" => true
  | _ => false

/-- Attribute-name check behind getattr(Movie, field, None): the Movie model
exposes title, cast, director, genres, ratings and the hybrid properties —
but no attribute called name. -/
def movieHasField : String → Bool
  | "id" | "title" | "director_id" | "release_year" | "cast"
  | "created_at" | "updated_at" | "director" | "genres" | "ratings"
  | "average_rating" | "ratings_count" => true
  | _ => false

/-- SQL equality of a Director column against a string value.  The only
string-valued columns are name and description; no caller compares the
numeric or timestamp columns against a string. -/
def directorColumnEqStr (d : Director) (field value : String) : Bool :=
  match field with
  | "name" => d.name == value
  | "description" => d.description == some value
  | _ => false

/-- SQL equality of a Genre column against a string value. -/
def genreColumnEqStr (g : Genre) (field value : String) : Bool :=
  match field with
  | "name" => g.name == value
  | "description" => g.description == some value
  | _ => false

/-- SQL equality of a Movie column against a string value. -/
def movieColumnEqStr (m : Movie) (field value : String) : Bool :=
  match field with
  | "title" => m.title == value
  | "cast" => m.cast == some value
  | _ => false

/-- BaseRepository.get_by_field on the directors table: ValueError when the
model has no such attribute, else the first row whose column equals the
value (exact, case-sensitive SQL equality). -/
def directorGetByField (s : Store) (field value : String) :
    Except Err (Option Director) :=
  if directorHasField field then
    .ok (s.directors.find? (fun d => directorColumnEqStr d field value))
  else
    .error (.valueError ("Field " ++ field ++ " not found in Director"))

/-- BaseRepository.get_by_field on the genres table. -/
def genreGetByField (s : Store) (field value : String) :
    Except Err (Option Genre) :=
  if genreHasField field then
    .ok (s.genres.find? (fun g => genreColumnEqStr g field value))
  else
    .error (.valueError ("Field " ++ field ++ " not found in Genre"))

/-- BaseRepository.get_by_field on the movies table. -/
def movieGetByField (s : Store) (field value : String) :
    Except Err (Option Movie) :=
  if movieHasField field then
    .ok (s.movies.find? (fun m => movieColumnEqStr m field value))
  else
    .error (.valueError ("Field " ++ field ++ " not found in Movie"))

/-- GenreRepository.get_by_name: exact name lookup, case-insensitive via
func.lower on both sides. -/
def genreGetByName (s : Store) (name : String) : Option Genre :=
  s.genres.find? (fun g => strLower g.name == strLower name)

/-- Insertion step of the deterministic model of SQL ORDER BY. -/
def insertLe (le : α → α → Bool) (a : α) : List α → List α
  | [] => [a]
  | b :: l => if le a b then a :: b :: l else b :: insertLe le a l

/-- Deterministic model of SQL ORDER BY: insertion sort by a boolean
comparison (ties keep storage order, which SQL leaves arbitrary). -/
def sortLe (le : α → α → Bool) : List α → List α
  | [] => []
  | a :: l => insertLe le a (sortLe le l)

/-- Direction handling in the repositories: order_direction.lower() ==
"desc" picks descending, anything else ascending. -/
def directionIsDesc (dir : String) : Bool := strLower dir == "desc"

/-- Comparison on nullable strings as SQLite sees them: NULL first. -/
def optStrLe : Option String → Option String → Bool
  | none, _ => true
  | some _, none => false
  | some a, some b => strLeBin a b

/-- Comparison on nullable ids: NULL first. -/
def optNatLe : Option Nat → Option Nat → Bool
  | none, _ => true
  | some _, none => false
  | some a, some b => a ≤ b

/-- Orderable Genre columns for get_all's dynamic order_by dispatch.  The
timestamp column created_at is not modelled (no studied caller orders
genres by it), so it maps to no comparator. -/
def genreColumnLe : String → Option (Genre → Genre → Bool)
  | "id" => some (fun a b => a.id ≤ b.id)
  | "name" => some (fun a b => strLeBin a.name b.name)
  | "description" => some (fun a b => optStrLe a.description b.description)
  | _ => none

/-- Orderable Director columns for get_all's order_by dispatch. -/
def directorColumnLe : String → Option (Director → Director → Bool)
  | "id" => some (fun a b => a.id ≤ b.id)
  | "name" => some (fun a b => strLeBin a.name b.name)
  | "birth_year" => some (fun a b => optIntLe a.birth_year b.birth_year)
  | "description" => some (fun a b => optStrLe a.description b.description)
  | _ => none

/-- Orderable Movie columns. -/
def movieColumnLe : String → Option (Movie → Movie → Bool)
  | "id" => some (fun a b => a.id ≤ b.id)
  | "title" => some (fun a b => strLeBin a.title b.title)
  | "director_id" => some (fun a b => optNatLe a.director_id b.director_id)
  | "release_year" => some (fun a b => optIntLe a.release_year b.release_year)
  | "cast" => some (fun a b => optStrLe a.cast b.cast)
  | _ => none

/-- Orderable MovieRating columns. -/
def ratingColumnLe : String → Option (MovieRating → MovieRating → Bool)
  | "id" => some (fun a b => a.id ≤ b.id)
  | "movie_id" => some (fun a b => a.movie_id ≤ b.movie_id)
  | "score" => some (fun a b => decide (a.score ≤ b.score))
  | "created_at" => some (fun a b => a.created_at ≤ b.created_at)
  | _ => none

/-- Ordering application shared by the get_all variants: a found column
sorts ascending or descending per the direction, an order_by naming no
column leaves the query unordered. -/
def applyOrder (columnLe : String → Option (α → α → Bool))
    (order_by : Option String) (dir : String) (l : List α) : List α :=
  match order_by with
  | none => l
  | some f =>
    match columnLe f with
    | some le => if directionIsDesc dir then sortLe (fun a b => le b a) l else sortLe le l
    | none => l

/-- BaseRepository.get_all on the genres table: optional ordering, then
offset/limit. -/
def genreGetAll (s : Store) (skip limit : Nat)
    (order_by : Option String) (dir : String) : List Genre :=
  ((applyOrder genreColumnLe order_by dir s.genres).drop skip).take limit

/-- BaseRepository.get_all on the directors table. -/
def directorGetAll (s : Store) (skip limit : Nat)
    (order_by : Option String) (dir : String) : List Director :=
  ((applyOrder directorColumnLe order_by dir s.directors).drop skip).take limit

/-- MovieRepository.get_all_with_details: like get_all but an absent or
unknown order_by falls back to title ascending rather than no ordering. -/
def movieGetAllWithDetails (s : Store) (skip limit : Nat)
    (order_by : Option String) (dir : String) : List Movie :=
  let titleAsc := sortLe (fun a b => strLeBin a.title b.title) s.movies
  let sorted :=
    match order_by with
    | none => titleAsc
    | some f =>
      match movieColumnLe f with
      | some le => if directionIsDesc dir then sortLe (fun a b => le b a) s.movies
                   else sortLe le s.movies
      | none => titleAsc
  ((sorted.drop skip).take limit)

/-- MovieRepository.search_by_title: case-insensitive substring match on the
title, ordered by title ascending. -/
def searchByTitle (s : Store) (title_query : String) (skip limit : Nat) : List Movie :=
  (((sortLe (fun a b => strLeBin a.title b.title)
      (s.movies.filter (fun m => substrCI title_query m.title))).drop skip).take limit)

/-- MovieRepository.get_by_director: movies of one director, ordered by
release_year descending (NULL years last, as SQLite DESC puts them). -/
def getByDirector (s : Store) (director_id : Nat) (skip limit : Nat) : List Movie :=
  (((sortLe (fun a b => optIntLe b.release_year a.release_year)
      (s.movies.filter (fun m => m.director_id == some director_id))).drop skip).take limit)

/-- Membership of a movie in a genre through the movie_genres join. -/
def movieInGenre (s : Store) (genre_id : Nat) (m : Movie) : Bool :=
  s.movieGenres.any (fun mg => mg.movie_id == m.id && mg.genre_id == genre_id)

/-- MovieRepository.get_by_genre: join through the association table,
ordered by title ascending. -/
def getByGenre (s : Store) (genre_id : Nat) (skip limit : Nat) : List Movie :=
  (((sortLe (fun a b => strLeBin a.title b.title)
      (s.movies.filter (movieInGenre s genre_id))).drop skip).take limit)

/-- MovieRepository.get_by_year_range: the branch structure mirrors the
Python truthiness tests on start_year and end_year; a NULL release_year
fails every SQL comparison and is filtered out whenever a bound applies.
Result ordered by release_year descending. -/
def getByYearRange (s : Store) (start_year end_year : Option Int)
    (skip limit : Nat) : List Movie :=
  let pred : Movie → Bool :=
    if truthyInt start_year && truthyInt end_year then
      fun m => match m.release_year with
        | some y => start_year.getD 0 ≤ y && y ≤ end_year.getD 0
        | none => false
    else if truthyInt start_year then
      fun m => match m.release_year with
        | some y => start_year.getD 0 ≤ y
        | none => false
    else if truthyInt end_year then
      fun m => match m.release_year with
        | some y => y ≤ end_year.getD 0
        | none => false
    else fun _ => true
  (((sortLe (fun a b => optIntLe b.release_year a.release_year)
      (s.movies.filter pred)).drop skip).take limit)

/-- MovieService.get_all_movies: get_all_with_details with default
ordering. -/
def getAllMovies (s : Store) (skip limit : Nat) : List Movie :=
  movieGetAllWithDetails s skip limit none "asc"

/-- MovieService.search_movies: the if/elif dispatch on the Python
truthiness of each argument; at most one repository filter runs. -/
def searchMovies (s : Store) (title_query : Option String)
    (director_id genre_id : Option Nat) (min_year max_year : Option Int)
    (skip limit : Nat) : List Movie :=
  if truthyStr title_query then searchByTitle s (title_query.getD "") skip limit
  else if truthyNat director_id then getByDirector s (director_id.getD 0) skip limit
  else if truthyNat genre_id then getByGenre s (genre_id.getD 0) skip limit
  else if truthyInt min_year || truthyInt max_year then
    getByYearRange s min_year max_year skip limit
  else getAllMovies s skip limit

/-- Modelled from the spec: the search dispatch as claim C6 words it, the
first non-null (Python None) dimension in priority order title > director >
genre > year-range > none.  Written for comparison with searchMovies, which
is the translation of the source. -/
def searchMoviesFirstNonNull (s : Store) (title_query : Option String)
    (director_id genre_id : Option Nat) (min_year max_year : Option Int)
    (skip limit : Nat) : List Movie :=
  match title_query with
  | some q => searchByTitle s q skip limit
  | none =>
    match director_id with
    | some d => getByDirector s d skip limit
    | none =>
      match genre_id with
      | some g => getByGenre s g skip limit
      | none =>
        if min_year ≠ none ∨ max_year ≠ none then
          getByYearRange s min_year max_year skip limit
        else getAllMovies s skip limit

/-- RatingRepository.get_movie_ratings: one movie's ratings with the same
dynamic ordering dispatch as get_all (default created_at descending). -/
def getMovieRatings (s : Store) (movie_id : Nat) (skip limit : Nat)
    (order_by : String) (dir : String) : List MovieRating :=
  let base := s.ratings.filter (fun r => r.movie_id == movie_id)
  let q :=
    if order_by ≠ "" then
      match ratingColumnLe order_by with
      | some le => if directionIsDesc dir then sortLe (fun a b => le b a) base
                   else sortLe le base
      | none => base
    else base
  ((q.drop skip).take limit)

/-- Result shape of RatingRepository.get_movie_rating_stats. -/
structure RatingStats where
  count : Nat
  average : Option ℚ
  min : Option Int
  max : Option Int
deriving Repr, DecidableEq

/-- RatingRepository.get_movie_rating_stats: one grouped query over the
movie's ratings.  SQL COUNT of no rows is 0, AVG/MIN/MAX of no rows are
NULL; the Python layer then re-tests the average for truthiness
(float(x) if x else None), so a NULL or zero average becomes None. -/
def getMovieRatingStats (s : Store) (movie_id : Nat) : RatingStats :=
  let scores : List Int := (s.ratings.filter (fun r => r.movie_id == movie_id)).map (fun r => r.score)
  let sqlAvg : Option ℚ :=
    if scores.isEmpty then none else some ((scores.sum : ℚ) / (scores.length : ℚ))
  { count := scores.length
    average :=
      match sqlAvg with
      | none => none
      | some a => if a = 0 then none else some a
    min := scores.min?
    max := scores.max? }

/-- GenreService.create_genre: trimmed-name requiredness, duplicate
pre-check through BaseRepository.get_by_field (exact, case-sensitive
equality on the trimmed name), then BaseRepository.create.  The genres
unique constraint is also case-sensitive and exact, so a row passing the
pre-check commits without violation. -/
def createGenre (s : Store) (name : String) (description : Option String) :
    Store × Except Err Genre :=
  if pyStrip name == "" then (s, .error (.validation "name" "Genre name is required"))
  else
    match genreGetByField s "name" (pyStrip name) with
    | .error e => (s, .error e)
    | .ok (some _) => (s, .error (.alreadyExists "Genre" name))
    | .ok none =>
      let g : Genre := ⟨freshId (s.genres.map (fun x => x.id)), pyStrip name, description⟩
      ({ s with genres := s.genres ++ [g] }, .ok g)

/-- MovieRepository.update_movie_genres: clear this movie's association
rows, re-attach each genre id that exists (unknown ids silently skipped),
commit.  A duplicate id in the list inserts the same (movie_id, genre_id)
pair twice, the unique_movie_genre constraint fires at commit, and the
handler rolls back and raises DatabaseError. -/
def repoUpdateMovieGenres (s : Store) (movie_id : Nat) (genre_ids : List Nat) :
    Store × Except Err Movie :=
  match movieGet s movie_id with
  | none => (s, .error (.notFound "Movie" (toString movie_id)))
  | some m =>
    let kept := s.movieGenres.filter (fun mg => mg.movie_id != movie_id)
    let added := genre_ids.filterMap
      (fun gid => if genreExists s gid then some (⟨movie_id, gid⟩ : MovieGenre) else none)
    let newAssoc := kept ++ added
    if newAssoc.Nodup then ({ s with movieGenres := newAssoc }, .ok m)
    else (s, .error (.databaseError ("Failed to update genres for movie " ++ toString movie_id)))

/-- MovieService.update_movie_genres: existence of the movie and of every
genre id is validated (first missing id wins), then the repository replaces
the set. -/
def updateMovieGenres (s : Store) (movie_id : Nat) (genre_ids : List Nat) :
    Store × Except Err Movie :=
  if ¬ movieExists s movie_id then (s, .error (.notFound "Movie" (toString movie_id)))
  else
    match genre_ids.find? (fun gid => !(genreExists s gid)) with
    | some gid => (s, .error (.validation "genre_ids"
        ("Genre with id " ++ toString gid ++ " does not exist")))
    | none => repoUpdateMovieGenres s movie_id genre_ids

/-- MovieService.create_movie: title requiredness, director existence,
release-year range (skipped when release_year is falsy), then the duplicate
pre-check get_by_field with field name — an attribute the Movie model does
not have, so get_by_field raises ValueError before anything is persisted.
The remaining create-and-attach-genres steps are translated for
completeness but are unreachable. -/
def createMovie (s : Store) (title : String) (director_id : Nat)
    (release_year : Option Int) (cast : Option String)
    (genre_ids : Option (List Nat)) : Store × Except Err Movie :=
  if pyStrip title == "" then (s, .error (.validation "title" "Title is required"))
  else if ¬ directorExists s director_id then
    (s, .error (.validation "director_id"
      ("Director with id " ++ toString director_id ++ " does not exist")))
  else if truthyInt release_year &&
      !(1888 ≤ release_year.getD 0 && release_year.getD 0 ≤ 2100) then
    (s, .error (.validation "release_year" "Release year must be between 1888 and 2100"))
  else
    match movieGetByField s "name" (pyStrip title) with
    | .error e => (s, .error e)
    | .ok (some _) => (s, .error (.alreadyExists "Movie" title))
    | .ok none =>
      let m : Movie := ⟨freshId (s.movies.map (fun x => x.id)), pyStrip title,
        some director_id, release_year, cast⟩
      let s1 := { s with movies := s.movies ++ [m] }
      match genre_ids with
      | some gids =>
        if gids.isEmpty then (s1, .ok m)
        else
          let r := updateMovieGenres s1 m.id gids
          match r.2 with
          | .ok _ => (r.1, .ok m)
          | .error e => (r.1, .error e)
      | none => (s1, .ok m)

/-- Field application of BaseRepository.update on a Movie row: each dict
entry present (the service only puts non-None values in) overwrites the
attribute, absent entries leave it alone. -/
def applyMovieUpdate (m : Movie) (title : Option String)
    (director_id : Option Nat) (release_year : Option Int)
    (cast : Option String) : Movie :=
  { m with
    title := match title with | some t => t | none => m.title
    director_id := match director_id with | some d => some d | none => m.director_id
    release_year := match release_year with | some y => some y | none => m.release_year
    cast := match cast with | some c => some c | none => m.cast }

/-- BaseRepository.update on the movies table: fetch or NotFound, apply the
non-None fields, commit. -/
def baseUpdateMovie (s : Store) (movie_id : Nat) (title : Option String)
    (director_id : Option Nat) (release_year : Option Int)
    (cast : Option String) : Store × Except Err Movie :=
  match movieGet s movie_id with
  | none => (s, .error (.notFound "Movie" (toString movie_id)))
  | some m =>
    let m' := applyMovieUpdate m title director_id release_year cast
    ({ s with movies := s.movies.map (fun x => if x.id == movie_id then m' else x) },
      .ok m')

/-- MovieService.update_movie: existence check, then update_data is built
from exactly the arguments that are not None (title stripped, director
existence and year range validated), the row is updated and committed, and
only then an explicit genres list is validated and replaced — a genre
validation failure at that point leaves the committed field update in
place.  The returned movie is the field-updated row. -/
def updateMovie (s : Store) (movie_id : Nat) (title : Option String)
    (director_id : Option Nat) (release_year : Option Int)
    (cast : Option String) (genre_ids : Option (List Nat)) :
    Store × Except Err Movie :=
  if ¬ movieExists s movie_id then (s, .error (.notFound "Movie" (toString movie_id)))
  else if (match director_id with
           | some d => !(directorExists s d)
           | none => false) then
    (s, .error (.validation "director_id"
      ("Director with id " ++ toString (director_id.getD 0) ++ " does not exist")))
  else if (match release_year with
           | some y => !(decide (1888 ≤ y ∧ y ≤ 2100))
           | none => false) then
    (s, .error (.validation "release_year" "Release year must be between 1888 and 2100"))
  else
    match baseUpdateMovie s movie_id (title.map (fun t => pyStrip t))
        director_id release_year cast with
    | (s1, .error e) => (s1, .error e)
    | (s1, .ok m') =>
      match genre_ids with
      | none => (s1, .ok m')
      | some gids =>
        let r := updateMovieGenres s1 movie_id gids
        match r.2 with
        | .ok _ => (r.1, .ok m')
        | .error e => (r.1, .error e)

/-- BaseRepository.update on the genres table. -/
def baseUpdateGenre (s : Store) (genre_id : Nat) (name description : Option String) :
    Store × Except Err Genre :=
  match s.genres.find? (fun g => g.id == genre_id) with
  | none => (s, .error (.notFound "Genre" (toString genre_id)))
  | some g =>
    let g' : Genre := { g with
      name := match name with | some n => n | none => g.name
      description := match description with | some d => some d | none => g.description }
    ({ s with genres := s.genres.map (fun x => if x.id == genre_id then g' else x) },
      .ok g')

/-- GenreService.update_genre: existence check; a provided name is stripped
and duplicate-checked against other rows (exact get_by_field lookup);
provided fields are applied, absent ones kept. -/
def updateGenre (s : Store) (genre_id : Nat) (name description : Option String) :
    Store × Except Err Genre :=
  if ¬ genreExists s genre_id then (s, .error (.notFound "Genre" (toString genre_id)))
  else
    let dupErr : Option Err :=
      match name with
      | some n =>
        match genreGetByField s "name" (pyStrip n) with
        | .error e => some e
        | .ok (some g) => if g.id != genre_id then some (.alreadyExists "Genre" n) else none
        | .ok none => none
      | none => none
    match dupErr with
    | some e => (s, .error e)
    | none => baseUpdateGenre s genre_id (name.map (fun n => pyStrip n)) description

/-- BaseRepository.update on the directors table. -/
def baseUpdateDirector (s : Store) (director_id : Nat) (name : Option String)
    (birth_year : Option Int) (description : Option String) :
    Store × Except Err Director :=
  match s.directors.find? (fun d => d.id == director_id) with
  | none => (s, .error (.notFound "Director" (toString director_id)))
  | some d =>
    let d' : Director := { d with
      name := match name with | some n => n | none => d.name
      birth_year := match birth_year with | some y => some y | none => d.birth_year
      description := match description with | some x => some x | none => d.description }
    ({ s with directors := s.directors.map (fun x => if x.id == director_id then d' else x) },
      .ok d')

/-- DirectorService.update_director: existence check; a provided name is
stripped and duplicate-checked against other rows; a provided birth_year is
range-checked; provided fields applied, absent ones kept. -/
def updateDirector (s : Store) (director_id : Nat) (name : Option String)
    (birth_year : Option Int) (description : Option String) :
    Store × Except Err Director :=
  if ¬ directorExists s director_id then
    (s, .error (.notFound "Director" (toString director_id)))
  else
    let dupErr : Option Err :=
      match name with
      | some n =>
        match directorGetByField s "name" (pyStrip n) with
        | .error e => some e
        | .ok (some d) => if d.id != director_id then some (.alreadyExists "Director" n) else none
        | .ok none => none
      | none => none
    match dupErr with
    | some e => (s, .error e)
    | none =>
      if (match birth_year with
          | some y => !(decide (1800 ≤ y ∧ y ≤ 2100))
          | none => false) then
        (s, .error (.validation "birth_year" "Birth year must be between 1800 and 2100"))
      else
        baseUpdateDirector s director_id (name.map (fun n => pyStrip n)) birth_year description

/-- DirectorService.delete_director via BaseRepository.delete: the ORM
session delete cascades per the relationship configuration in
app/models/models.py — Director.movies carries cascade all, delete-orphan,
so every movie of the director is deleted; each deleted movie's ratings
relationship carries the same cascade, so its ratings go too; and the
movie_genres association rows of a deleted movie are removed with it.
Rows of unrelated movies are untouched. -/
def deleteDirector (s : Store) (director_id : Nat) : Store × Except Err Bool :=
  if directorExists s director_id then
    let removedIds := (s.movies.filter (fun m => m.director_id == some director_id)).map
      (fun m => m.id)
    ({ s with
        directors := s.directors.filter (fun d => d.id != director_id)
        movies := s.movies.filter (fun m => m.director_id != some director_id)
        movieGenres := s.movieGenres.filter (fun mg => !(removedIds.contains mg.movie_id))
        ratings := s.ratings.filter (fun r => !(removedIds.contains r.movie_id)) },
      .ok true)
  else (s, .error (.notFound "Director" (toString director_id)))

/-- Outcome of one write path under an injected commit failure: the
committed store visible afterwards, the raised condition, whether the code
path invoked session.rollback on the failure, and whether it instead left
the session with the failed transaction still in flight. -/
structure TxResult (α : Type) where
  store : Store
  result : Except Err α
  rolledBack : Bool
  inFlight : Bool
deriving Repr

/-- BaseRepository.create under an injected commit failure: the except
handler rolls the transaction back and raises DatabaseError; on success the
insertion is committed. -/
def baseCreateTx (s : Store) (insertRow : Store → Store) (commitFails : Bool)
    (modelName : String) : TxResult Unit :=
  if commitFails then
    ⟨s, .error (.databaseError ("Failed to create " ++ modelName)), true, false⟩
  else ⟨insertRow s, .ok (), false, false⟩

/-- BaseRepository.update under an injected commit failure: NotFound
re-raises without touching the transaction; a commit failure is rolled back
and raised as DatabaseError. -/
def baseUpdateTx (s : Store) (found : Bool) (applyRow : Store → Store)
    (commitFails : Bool) (modelName idStr : String) : TxResult Unit :=
  if ¬ found then ⟨s, .error (.notFound modelName idStr), false, false⟩
  else if commitFails then
    ⟨s, .error (.databaseError ("Failed to update " ++ modelName ++ " with id " ++ idStr)),
      true, false⟩
  else ⟨applyRow s, .ok (), false, false⟩

/-- BaseRepository.delete under an injected commit failure. -/
def baseDeleteTx (s : Store) (found : Bool) (applyRow : Store → Store)
    (commitFails : Bool) (modelName idStr : String) : TxResult Bool :=
  if ¬ found then ⟨s, .error (.notFound modelName idStr), false, false⟩
  else if commitFails then
    ⟨s, .error (.databaseError ("Failed to delete " ++ modelName ++ " with id " ++ idStr)),
      true, false⟩
  else ⟨applyRow s, .ok true, false, false⟩

/-- The new rating row RatingService.create_rating builds. -/
def mkRating (s : Store) (movie_id : Nat) (score : Int) : MovieRating :=
  ⟨freshId (s.ratings.map (fun r => r.id)), movie_id, score, s.tick⟩

/-- Committed insertion of a rating row. -/
def insertRating (s : Store) (movie_id : Nat) (score : Int) : Store :=
  { s with ratings := s.ratings ++ [mkRating s movie_id score], tick := s.tick + 1 }

/-- RatingRepository.create_rating under an injected commit failure: score
range first, then movie existence, both ValidationError before any write;
the commit sits inside a handler that rolls back and raises
DatabaseError. -/
def ratingRepoCreateRatingTx (s : Store) (movie_id : Nat) (score : Int)
    (commitFails : Bool) : TxResult MovieRating :=
  if ¬ (1 ≤ score ∧ score ≤ 10) then
    ⟨s, .error (.validation "score" "Score must be between 1 and 10"), false, false⟩
  else if ¬ movieExists s movie_id then
    ⟨s, .error (.validation "movie_id"
      ("Movie with id " ++ toString movie_id ++ " does not exist")), false, false⟩
  else if commitFails then
    ⟨s, .error (.databaseError ("Failed to create rating for movie " ++ toString movie_id)),
      true, false⟩
  else ⟨insertRating s movie_id score, .ok (mkRating s movie_id score), false, false⟩

/-- RatingService.create_rating under an injected commit failure: movie
existence first, then score range, both ValidationError before any write;
the session.add / commit / refresh sequence has no try block, so a commit
failure propagates the raw driver exception with no rollback, leaving the
failed transaction in flight. -/
def ratingServiceCreateRatingTx (s : Store) (movie_id : Nat) (score : Int)
    (commitFails : Bool) : TxResult MovieRating :=
  if ¬ movieExists s movie_id then
    ⟨s, .error (.validation "movie_id"
      ("Movie with id " ++ toString movie_id ++ " does not exist")), false, false⟩
  else if ¬ (1 ≤ score ∧ score ≤ 10) then
    ⟨s, .error (.validation "score" "Score must be between 1 and 10"), false, false⟩
  else if commitFails then
    ⟨s, .error (.storageFailure "commit failed"), false, true⟩
  else ⟨insertRating s movie_id score, .ok (mkRating s movie_id score), false, false⟩

/-- RatingService.update_rating under an injected commit failure: fetch or
NotFound, score range ValidationError, then an unprotected commit — a
failure propagates raw with no rollback. -/
def ratingServiceUpdateRatingTx (s : Store) (rating_id : Nat) (score : Int)
    (commitFails : Bool) : TxResult MovieRating :=
  match ratingGet s rating_id with
  | none => ⟨s, .error (.notFound "Rating" (toString rating_id)), false, false⟩
  | some r =>
    if ¬ (1 ≤ score ∧ score ≤ 10) then
      ⟨s, .error (.validation "score" "Score must be between 1 and 10"), false, false⟩
    else if commitFails then
      ⟨s, .error (.storageFailure "commit failed"), false, true⟩
    else
      let r' : MovieRating := { r with score := score }
      ⟨{ s with ratings := s.ratings.map (fun x => if x.id == rating_id then r' else x) },
        .ok r', false, false⟩

/-- RatingService.create_rating on a healthy connection (no commit
failure): the store afterwards and the outcome. -/
def createRating (s : Store) (movie_id : Nat) (score : Int) :
    Store × Except Err MovieRating :=
  let t := ratingServiceCreateRatingTx s movie_id score false
  (t.store, t.result)

/-- RatingService.update_rating on a healthy connection. -/
def updateRating (s : Store) (rating_id : Nat) (score : Int) :
    Store × Except Err MovieRating :=
  let t := ratingServiceUpdateRatingTx s rating_id score false
  (t.store, t.result)

/-- RatingService.get_movie_ratings: NotFound for a missing movie, else the
repository listing with its default created_at-descending order. -/
def getMovieRatingsSvc (s : Store) (movie_id skip limit : Nat) :
    Except Err (List MovieRating) :=
  if ¬ movieExists s movie_id then .error (.notFound "Movie" (toString movie_id))
  else .ok (getMovieRatings s movie_id skip limit "created_at" "desc")

/-- The pagination envelope data of §4.3 (page, page_size, total_items,
items). -/
structure Paginated (α : Type) where
  page : Nat
  page_size : Nat
  total_items : Nat
  items : List α
deriving Repr, DecidableEq

/-- BaseRepository.count on the movies table. -/
def countMovies (s : Store) : Nat := s.movies.length

/-- rating_controller.get_movie_ratings: offset = (page-1)*page_size, items
from the service listing, total_items from the stats count of the same
movie. -/
def getMovieRatingsEndpoint (s : Store) (movie_id page page_size : Nat) :
    Except Err (Paginated MovieRating) :=
  let skip := (page - 1) * page_size
  match getMovieRatingsSvc s movie_id skip page_size with
  | .error e => .error e
  | .ok items =>
    if ¬ movieExists s movie_id then .error (.notFound "Movie" (toString movie_id))
    else
      .ok ⟨page, page_size, (getMovieRatingStats s movie_id).count, items⟩

/-- movie_controller.get_movies: offset = (page-1)*page_size; with a truthy
genre parameter the already-paginated genre query is post-filtered in
memory by title substring and exact release year and total_items is the
length of that filtered page; with a truthy title or release_year (and no
genre) total_items is the unfiltered movie count; with no truthy filter the
plain listing is returned with the unfiltered count. -/
def getMoviesEndpoint (s : Store) (title : Option String)
    (release_year : Option Int) (genre : Option String)
    (page page_size : Nat) : Paginated Movie :=
  let skip := (page - 1) * page_size
  if truthyStr title || truthyInt release_year || truthyStr genre then
    if truthyStr genre then
      match genreGetByName s (genre.getD "") with
      | none => ⟨page, page_size, 0, []⟩
      | some gobj =>
        let movies := searchMovies s none none (some gobj.id) none none skip page_size
        let filtered := movies.filter (fun m =>
          (!(truthyStr title) || substrCI (title.getD "") m.title) &&
          (!(truthyInt release_year) || m.release_year == some (release_year.getD 0)))
        ⟨page, page_size, filtered.length, filtered⟩
    else
      let movies :=
        if truthyStr title then
          searchMovies s title none none none none skip page_size
        else if truthyInt release_year then
          (((getAllMovies s 0 1000).filter
            (fun m => m.release_year == some (release_year.getD 0))).drop skip).take page_size
        else getAllMovies s skip page_size
      ⟨page, page_size, countMovies s, movies⟩
  else
    ⟨page, page_size, countMovies s, getAllMovies s skip page_size⟩

/-- Success test on an operation outcome. -/
def exceptSucceeded : Except Err α → Bool
  | .ok _ => true
  | .error _ => false

/-- Test for a ValidationError outcome, whichever field it names. -/
def isValidationErr : Except Err α → Bool
  | .error (.validation _ _) => true
  | _ => false

/-- Store of the spec's end-to-end scenario right before the movie is
created: director A. Hitchcock and genre Thriller exist. -/
def hitchcockStore : Store :=
  ⟨[⟨1, "A. Hitchcock", some 1899, none⟩], [⟨1, "Thriller", none⟩], [], [], [], 0⟩

/-- Store holding one movie, used to exercise the rating write paths. -/
def oneMovieStore : Store :=
  ⟨[], [], [⟨1, "Psycho", none, some 1960, none⟩], [], [], 0⟩

/-- Store of the scenario after the movie exists and ratings 8, 9, 10 were
posted on it. -/
def ratedStore : Store :=
  ⟨[⟨1, "A. Hitchcock", some 1899, none⟩], [⟨1, "Thriller", none⟩],
   [⟨1, "Psycho", some 1, some 1960, none⟩], [⟨1, 1⟩],
   [⟨1, 1, 8, 0⟩, ⟨2, 1, 9, 1⟩, ⟨3, 1, 10, 2⟩], 3⟩

/-- Store holding the genre Drama, for the duplicate-name experiments. -/
def dramaStore : Store := ⟨[], [⟨1, "Drama", none⟩], [], [], [], 0⟩

/-- Store with two movies by different directors, for the search-dispatch
experiments: movie A by director 2, movie B by director 1. -/
def twoDirectorStore : Store :=
  ⟨[⟨1, "D1", none, none⟩, ⟨2, "D2", none, none⟩], [],
   [⟨1, "A", some 2, none, none⟩, ⟨2, "B", some 1, none, none⟩], [], [], 0⟩

/-- Store with one genre containing two movies, for the pagination
experiments. -/
def genreTwoStore : Store :=
  ⟨[], [⟨1, "G", none⟩],
   [⟨1, "A", none, none, none⟩, ⟨2, "B", none, none, none⟩],
   [⟨1, 1⟩, ⟨2, 1⟩], [], 0⟩

/-- Store whose genres sit in storage order zeta before alpha, for the
default-ordering experiments. -/
def zetaAlphaStore : Store :=
  ⟨[], [⟨1, "zeta", none⟩, ⟨2, "alpha", none⟩], [], [], [], 0⟩

/-- Store with fully populated rows of each kind, for the partial-update
experiments. -/
def updateFrameStore : Store :=
  ⟨[⟨1, "Old Director", some 1900, some "od"⟩],
   [⟨1, "Old Genre", some "og"⟩],
   [⟨1, "Old Title", some 1, some 1999, some "oc"⟩], [], [], 0⟩

/-- Store with one director owning one rated movie and one unrelated movie
with its own rating, for the cascade-delete experiments. -/
def cascadeStore : Store :=
  ⟨[⟨1, "D1", none, none⟩, ⟨2, "D2", none, none⟩],
   [⟨1, "G", none⟩],
   [⟨1, "Owned", some 1, none, none⟩, ⟨2, "Other", some 2, none, none⟩],
   [⟨1, 1⟩, ⟨2, 1⟩],
   [⟨1, 1, 7, 0⟩, ⟨2, 2, 9, 1⟩], 2⟩

/-- Helper: get_by_field with field name on the movies table always raises
ValueError, whatever the store and value, because the Movie model has no
attribute called name. -/
theorem movieGetByField_name (s : Store) (v : String) :
    movieGetByField s "name" v = .error (.valueError "Field name not found in Movie") := rfl

/-- Claim C1: every valid movie-creation input (non-empty trimmed title,
existing director, in-range release year) is claimed to succeed and persist
the movie.  The code instead reaches the duplicate pre-check
get_by_field('name', ...), which raises ValueError for every input because
the Movie model has no name attribute: creation always fails and the store
is unchanged, so the spec's end-to-end scenario is not achievable. -/
theorem claim_C1_createMovie_always_fails (s : Store) (title : String)
    (director_id : Nat) (release_year : Option Int) (cast : Option String)
    (genre_ids : Option (List Nat))
    (htitle : pyStrip title ≠ "")
    (hdir : directorExists s director_id = true)
    (hyear : ∀ y, release_year = some y → y ≠ 0 → 1888 ≤ y ∧ y ≤ 2100) :
    createMovie s title director_id release_year cast genre_ids =
      (s, .error (.valueError "Field name not found in Movie")) := by
  have h1 : (pyStrip title == "") = false := by
    simpa [String.ext_iff] using htitle
  have hy : (truthyInt release_year &&
      !(decide (1888 ≤ release_year.getD 0) && decide (release_year.getD 0 ≤ 2100))) = false := by
    cases release_year with
    | none => rfl
    | some y =>
      by_cases h0 : y = 0
      · subst h0; rfl
      · have hb := hyear y rfl h0
        simp [truthyInt, h0, hb.1, hb.2]
  simp only [createMovie, h1, hdir, hy, movieGetByField_name, Bool.false_eq_true,
    if_false, not_true, if_neg, ite_false, Bool.not_true, decide_True, decide_False]

/-- Witness for C1: the spec scenario's own creation call (Psycho, existing
director Hitchcock, year 1960, genre Thriller) fails with the ValueError
and leaves the store untouched. -/
theorem claim_C1_witness :
    createMovie hitchcockStore "Psycho" 1 (some 1960) none (some [1]) =
      (hitchcockStore, .error (.valueError "Field name not found in Movie")) := by
  exact claim_C1_createMovie_always_fails hitchcockStore "Psycho" 1 (some 1960) none
    (some [1]) (by decide) (by decide)
    (by intro y hy h0; cases hy; exact ⟨by norm_num, by norm_num⟩)

/-- Claim C2: creating a rating succeeds exactly when the movie exists and
the score lies in [1,10]; a valid success appends exactly the new row; an
out-of-range score makes creation fail with a ValidationError leaving the
store unchanged, and likewise update on an existing rating fails with the
score ValidationError leaving the store unchanged. -/
theorem claim_C2_rating_validation (s : Store) (movie_id : Nat) (score : Int) :
    (exceptSucceeded (createRating s movie_id score).2 = true ↔
      movieExists s movie_id = true ∧ 1 ≤ score ∧ score ≤ 10)
    ∧ (movieExists s movie_id = true → 1 ≤ score → score ≤ 10 →
        (createRating s movie_id score).1.ratings = s.ratings ++ [mkRating s movie_id score])
    ∧ (¬ (1 ≤ score ∧ score ≤ 10) →
        (createRating s movie_id score).1 = s ∧
        isValidationErr (createRating s movie_id score).2 = true)
    ∧ (∀ rating_id r, ratingGet s rating_id = some r → ¬ (1 ≤ score ∧ score ≤ 10) →
        updateRating s rating_id score =
          (s, .error (.validation "score" "Score must be between 1 and 10"))) := by
  refine ⟨?_, ?_, ?_, ?_⟩
  · by_cases hm : movieExists s movie_id = true
    · by_cases hr : (1 ≤ score ∧ score ≤ 10)
      · simp [createRating, ratingServiceCreateRatingTx, hm, hr, exceptSucceeded]
      · simp [createRating, ratingServiceCreateRatingTx, hm, hr, exceptSucceeded]
    · simp [createRating, ratingServiceCreateRatingTx, hm, exceptSucceeded]
  · intro hm h1 h2
    simp [createRating, ratingServiceCreateRatingTx, hm, h1, h2, insertRating]
  · intro hr
    by_cases hm : movieExists s movie_id = true
    · simp [createRating, ratingServiceCreateRatingTx, hm, hr, isValidationErr]
    · simp [createRating, ratingServiceCreateRatingTx, hm, hr, isValidationErr]
  · intro rating_id r hfind hr
    simp [updateRating, ratingServiceUpdateRatingTx, hfind, hr]

/-- Witness for C2: on the one-movie store, score 11 is rejected without
touching the store, and score 5 appends one row. -/
theorem claim_C2_witness :
    ((createRating oneMovieStore 1 11).1 = oneMovieStore
      ∧ isValidationErr (createRating oneMovieStore 1 11).2 = true)
    ∧ (createRating oneMovieStore 1 5).1.ratings = [⟨1, 1, 5, 0⟩] := by
  constructor
  · exact (claim_C2_rating_validation oneMovieStore 1 11).2.2.1 (by decide)
  · have h := (claim_C2_rating_validation oneMovieStore 1 5).2.1 (by decide)
      (by decide) (by decide)
    simpa using h

/-- Claim C3 as stated is false: the duplicate pre-check in create_genre is
BaseRepository.get_by_field, an exact case-sensitive equality, not the
case-insensitive get_by_name lookup.  Creating drama after Drama therefore
succeeds and persists a second genre. -/
theorem claim_C3_counterexample :
    (createGenre dramaStore "drama" none).2 = .ok ⟨2, "drama", none⟩
    ∧ (createGenre dramaStore "drama" none).1.genres =
      [⟨1, "Drama", none⟩, ⟨2, "drama", none⟩]
    ∧ genreGetByName dramaStore "drama" = some ⟨1, "Drama", none⟩ := by
  refine ⟨rfl, by decide, by decide⟩

/-- Claim C3 amended: the duplicate pre-check is an exact case-sensitive
lookup of the trimmed name; a second genre whose trimmed name equals a
stored name exactly fails with AlreadyExists and persists nothing, while a
name differing (even only by letter case) is created and appended. -/
theorem claim_C3_amended (s : Store) (name : String) (description : Option String)
    (hname : pyStrip name ≠ "") :
    ((∃ g ∈ s.genres, g.name = pyStrip name) →
      createGenre s name description = (s, .error (.alreadyExists "Genre" name)))
    ∧ ((∀ g ∈ s.genres, g.name ≠ pyStrip name) →
      createGenre s name description =
        ({ s with genres := s.genres ++
            [⟨freshId (s.genres.map (fun x => x.id)), pyStrip name, description⟩] },
         .ok ⟨freshId (s.genres.map (fun x => x.id)), pyStrip name, description⟩)) := by
  have h1 : (pyStrip name == "") = false := by
    simpa [String.ext_iff] using hname
  constructor
  · rintro ⟨g, hg, hgname⟩
    have hfind : (s.genres.find? (fun g => genreColumnEqStr g "name" (pyStrip name))).isSome := by
      rw [List.find?_isSome]
      exact ⟨g, hg, by simp [genreColumnEqStr, hgname]⟩
    rcases hsome : s.genres.find? (fun g => genreColumnEqStr g "name" (pyStrip name)) with _ | g'
    · rw [hsome] at hfind; simp at hfind
    · simp [createGenre, genreGetByField, genreHasField, h1, hsome]
  · intro hall
    have hnone : s.genres.find? (fun g => genreColumnEqStr g "name" (pyStrip name)) = none := by
      rw [List.find?_eq_none]
      intro g hg
      simp [genreColumnEqStr]
      exact hall g hg
    simp [createGenre, genreGetByField, genreHasField, h1, hnone]

/-- Witness for C3 amended: exact duplicate Drama is rejected, fresh name
Horror is appended. -/
theorem claim_C3_witness :
    createGenre dramaStore "Drama" none = (dramaStore, .error (.alreadyExists "Genre" "Drama"))
    ∧ (createGenre dramaStore "Horror" none).2 = .ok ⟨2, "Horror", none⟩ := by
  constructor
  · exact (claim_C3_amended dramaStore "Drama" none (by decide)).1
      ⟨⟨1, "Drama", none⟩, by decide, by decide⟩
  · have h := (claim_C3_amended dramaStore "Horror" none (by decide)).2
      (by decide)
    rw [h]
    rfl

/-- Claim C4: deleting an existing director removes the director row, every
movie whose director_id referenced it, and transitively those movies'
ratings; the surviving movies are exactly the original rows of other
directors (so none survives with a nulled director_id), and the genres
table is untouched. -/
theorem claim_C4_director_cascade (s : Store) (did : Nat)
    (h : directorExists s did = true) :
    (deleteDirector s did).2 = .ok true
    ∧ (∀ d, d ∈ (deleteDirector s did).1.directors ↔ d ∈ s.directors ∧ d.id ≠ did)
    ∧ (∀ m, m ∈ (deleteDirector s did).1.movies ↔ m ∈ s.movies ∧ m.director_id ≠ some did)
    ∧ (∀ r, r ∈ (deleteDirector s did).1.ratings ↔
        r ∈ s.ratings ∧ ∀ m ∈ s.movies, m.id = r.movie_id → m.director_id ≠ some did)
    ∧ (deleteDirector s did).1.genres = s.genres := by
  refine ⟨by simp [deleteDirector, h], ?_, ?_, ?_, by simp [deleteDirector, h]⟩
  · intro d; simp [deleteDirector, h, List.mem_filter]
  · intro m; simp [deleteDirector, h, List.mem_filter]
  · intro r
    simp only [deleteDirector, h, if_true, List.mem_filter, Bool.not_eq_true',
      List.contains, List.elem_eq_mem, decide_eq_false_iff_not, List.mem_map,
      List.mem_filter, beq_iff_eq]
    constructor
    · rintro ⟨hr, hno⟩
      refine ⟨hr, ?_⟩
      intro m hm hid hdir
      exact hno ⟨m, ⟨hm, hdir⟩, hid⟩
    · rintro ⟨hr, hall⟩
      refine ⟨hr, ?_⟩
      rintro ⟨m, ⟨hm, hdir⟩, hid⟩
      exact hall m hm hid hdir

/-- Witness for C4: deleting director 1 from the cascade store removes the
owned movie and its rating. -/
theorem claim_C4_witness :
    directorExists cascadeStore 1 = true
    ∧ (deleteDirector cascadeStore 1).2 = .ok true
    ∧ ((⟨1, 1, 7, 0⟩ : MovieRating) ∈ (deleteDirector cascadeStore 1).1.ratings ↔
        (⟨1, 1, 7, 0⟩ : MovieRating) ∈ cascadeStore.ratings ∧
        ∀ m ∈ cascadeStore.movies, m.id = 1 → m.director_id ≠ some 1) := by
  refine ⟨by decide, (claim_C4_director_cascade cascadeStore 1 (by decide)).1,
    (claim_C4_director_cascade cascadeStore 1 (by decide)).2.2.2.1 ⟨1, 1, 7, 0⟩⟩

/-- Helper: a list of integers that are all at least 1 has its length as a
lower bound of its sum. -/
theorem length_le_sum_of_one_le (l : List Int) (h : ∀ x ∈ l, 1 ≤ x) :
    (l.length : Int) ≤ l.sum := by
  induction l with
  | nil => simp
  | cons a l ih =>
    have ha := h a (List.mem_cons_self a l)
    have hl := ih (fun x hx => h x (List.mem_cons_of_mem a hx))
    simp only [List.length_cons, List.sum_cons]
    push_cast
    omega

/-- Claim C5: on a store whose rating scores are all at least 1 (the
check_score_range constraint), getMovieRatingStats of a movie with no
ratings is count 0 with average, min and max all absent; with at least one
rating it is the exact count, the exact mean, and a minimum and maximum
that belong to the score multiset and bound it. -/
theorem claim_C5_rating_stats (s : Store) (movie_id : Nat)
    (hwf : ∀ r ∈ s.ratings, 1 ≤ r.score) :
    ((s.ratings.filter (fun r => r.movie_id == movie_id)).map (fun r => r.score) = [] →
      getMovieRatingStats s movie_id = ⟨0, none, none, none⟩)
    ∧ ((s.ratings.filter (fun r => r.movie_id == movie_id)).map (fun r => r.score) ≠ [] →
      (getMovieRatingStats s movie_id).count =
        ((s.ratings.filter (fun r => r.movie_id == movie_id)).map (fun r => r.score)).length
      ∧ (getMovieRatingStats s movie_id).average = some
          (((((s.ratings.filter (fun r => r.movie_id == movie_id)).map (fun r => r.score)).sum : Int) : ℚ) /
            (((s.ratings.filter (fun r => r.movie_id == movie_id)).map (fun r => r.score)).length : ℚ))
      ∧ (∃ a, (getMovieRatingStats s movie_id).min = some a ∧
          a ∈ (s.ratings.filter (fun r => r.movie_id == movie_id)).map (fun r => r.score) ∧
          ∀ b ∈ (s.ratings.filter (fun r => r.movie_id == movie_id)).map (fun r => r.score), a ≤ b)
      ∧ (∃ a, (getMovieRatingStats s movie_id).max = some a ∧
          a ∈ (s.ratings.filter (fun r => r.movie_id == movie_id)).map (fun r => r.score) ∧
          ∀ b ∈ (s.ratings.filter (fun r => r.movie_id == movie_id)).map (fun r => r.score), b ≤ a)) := by
  set scores := (s.ratings.filter (fun r => r.movie_id == movie_id)).map (fun r => r.score) with hscores
  have hsc1 : ∀ x ∈ scores, 1 ≤ x := by
    intro x hx
    rw [hscores] at hx
    obtain ⟨r, hr, hrx⟩ := List.mem_map.mp hx
    exact hrx ▸ hwf r (List.mem_filter.mp hr).1
  constructor
  · intro hempty
    simp [getMovieRatingStats, ← hscores, hempty]
  · intro hne
    have hlen : 0 < scores.length := List.length_pos.mpr hne
    have hsum : 0 < scores.sum := by
      have := length_le_sum_of_one_le scores hsc1
      omega
    have havg : ((scores.sum : ℚ) / (scores.length : ℚ)) ≠ 0 := by
      apply div_ne_zero
      · exact_mod_cast hsum.ne'
      · exact_mod_cast hlen.ne'
    haveI : Std.Antisymm (fun x1 x2 : Int => x1 ≤ x2) :=
      ⟨fun h1 h2 => le_antisymm h1 h2⟩
    have hie : scores.isEmpty = false := by simp [List.isEmpty_iff, hne]
    have hminsome : scores.min?.isSome := by
      cases hc : scores with
      | nil => exact absurd hc hne
      | cons x xs => simp [List.min?]
    have hmaxsome : scores.max?.isSome := by
      cases hc : scores with
      | nil => exact absurd hc hne
      | cons x xs => simp [List.max?]
    refine ⟨by simp [getMovieRatingStats, ← hscores], ?_, ?_, ?_⟩
    · simp only [getMovieRatingStats, ← hscores, hie, Bool.false_eq_true, if_false,
        if_neg havg]
    · obtain ⟨a, ha⟩ := Option.isSome_iff_exists.mp hminsome
      have := (List.min?_eq_some_iff le_refl min_choice
        (fun _ _ _ => le_min_iff)).mp ha
      exact ⟨a, by simp [getMovieRatingStats, ← hscores, ha], this.1, this.2⟩
    · obtain ⟨a, ha⟩ := Option.isSome_iff_exists.mp hmaxsome
      have := (List.max?_eq_some_iff le_refl max_choice
        (fun _ _ _ => max_le_iff)).mp ha
      exact ⟨a, by simp [getMovieRatingStats, ← hscores, ha], this.1, this.2⟩

/-- Witness for C5: the scenario store with ratings 8, 9, 10 on movie 1
yields count 3 and average exactly 9, matching the spec scenario's
average_rating 9.0 and ratings_count 3; movie 2 has no ratings and all
aggregates absent. -/
theorem claim_C5_witness :
    (getMovieRatingStats ratedStore 1).count = 3
    ∧ (getMovieRatingStats ratedStore 1).average = some 9
    ∧ getMovieRatingStats ratedStore 2 = ⟨0, none, none, none⟩ := by
  have h := (claim_C5_rating_stats ratedStore 1 (by decide)).2 (by decide)
  have h2 := (claim_C5_rating_stats ratedStore 2 (by decide)).1 (by decide)
  refine ⟨h.1, ?_, h2⟩
  have hs : ((((ratedStore.ratings.filter (fun r => r.movie_id == 1)).map
      (fun r => r.score)).sum : Int)) = 27 := by decide
  have hl : (((ratedStore.ratings.filter (fun r => r.movie_id == 1)).map
      (fun r => r.score)).length) = 3 := by decide
  rw [h.2.1, hs, hl]
  norm_num

/-- Claim C6 as stated is false: the dispatch in search_movies tests Python
truthiness, not non-nullness.  With a non-null empty title filter and a
non-null director filter the repository applies the director dimension,
not the title dimension the priority order non-null reading demands. -/
theorem claim_C6_counterexample :
    searchMovies twoDirectorStore (some "") (some 1) none none none 0 100 =
      [⟨2, "B", some 1, none, none⟩]
    ∧ searchMoviesFirstNonNull twoDirectorStore (some "") (some 1) none none none 0 100 =
      [⟨1, "A", some 2, none, none⟩, ⟨2, "B", some 1, none, none⟩]
    ∧ ([⟨2, "B", some 1, none, none⟩] : List Movie) ≠
      [⟨1, "A", some 2, none, none⟩, ⟨2, "B", some 1, none, none⟩] := by
  refine ⟨by decide, by decide, by decide⟩

/-- Claim C6 amended: exactly one repository filter dimension is applied —
the first truthy argument in priority order title > director > genre >
year-range, where the empty string, a zero id and a zero year count as
absent — and when every argument is falsy the unfiltered listing is
returned. -/
theorem claim_C6_amended (s : Store) (tq : Option String) (did gid : Option Nat)
    (miny maxy : Option Int) (skip limit : Nat) :
    (truthyStr tq = true →
      searchMovies s tq did gid miny maxy skip limit =
        searchByTitle s (tq.getD "") skip limit)
    ∧ (truthyStr tq = false → truthyNat did = true →
      searchMovies s tq did gid miny maxy skip limit =
        getByDirector s (did.getD 0) skip limit)
    ∧ (truthyStr tq = false → truthyNat did = false → truthyNat gid = true →
      searchMovies s tq did gid miny maxy skip limit =
        getByGenre s (gid.getD 0) skip limit)
    ∧ (truthyStr tq = false → truthyNat did = false → truthyNat gid = false →
        (truthyInt miny || truthyInt maxy) = true →
      searchMovies s tq did gid miny maxy skip limit =
        getByYearRange s miny maxy skip limit)
    ∧ (truthyStr tq = false → truthyNat did = false → truthyNat gid = false →
        truthyInt miny = false → truthyInt maxy = false →
      searchMovies s tq did gid miny maxy skip limit = getAllMovies s skip limit) := by
  refine ⟨?_, ?_, ?_, ?_, ?_⟩
  · intro h1; simp [searchMovies, h1]
  · intro h1 h2; simp [searchMovies, h1, h2]
  · intro h1 h2 h3; simp [searchMovies, h1, h2, h3]
  · intro h1 h2 h3 h4; simp [searchMovies, h1, h2, h3, h4]
  · intro h1 h2 h3 h4 h5; simp [searchMovies, h1, h2, h3, h4, h5]

/-- Witness for C6 amended: a store searched with only a genre id applies
the genre dimension, and with no arguments returns the unfiltered
listing. -/
theorem claim_C6_witness :
    searchMovies genreTwoStore none none (some 1) none none 0 10 =
      getByGenre genreTwoStore 1 0 10
    ∧ searchMovies twoDirectorStore none none none none none 0 10 =
      getAllMovies twoDirectorStore 0 10 := by
  refine ⟨(claim_C6_amended genreTwoStore none none (some 1) none none 0 10).2.2.1
      rfl rfl (by decide),
    (claim_C6_amended twoDirectorStore none none none none none 0 10).2.2.2.2
      rfl rfl rfl rfl rfl⟩

/-- Claim C7 as stated is false: in the movies list endpoint's genre branch
the repository page is fetched first and post-filtered, and total_items is
the length of that filtered page, so it depends on the requested page and
differs from the filtered row count (2 movies carry genre G, yet every page
reports total_items 1 at page_size 1). -/
theorem claim_C7_counterexample :
    (getMoviesEndpoint genreTwoStore none none (some "G") 1 1).total_items = 1
    ∧ (getMoviesEndpoint genreTwoStore none none (some "G") 2 1).total_items = 1
    ∧ (getMoviesEndpoint genreTwoStore none none (some "G") 2 1).items =
        [⟨2, "B", none, none, none⟩]
    ∧ (genreTwoStore.movies.filter (movieInGenre genreTwoStore 1)).length = 2 := by
  refine ⟨by decide, by decide, by decide, by decide⟩

/-- Claim C7 amended: the offset is (page-1)*page_size on every paginated
endpoint; the per-movie ratings endpoint returns the slice of the
created_at-descending listing at that offset with total_items equal to the
movie's full rating count whatever the page; the movies endpoint with no
filters returns the slice of the title-ascending listing with total_items
equal to the unfiltered movie count; only the genre branch's total_items is
page-dependent (shown false above for the original reading). -/
theorem claim_C7_amended (s : Store) (movie_id page page_size : Nat)
    (hm : movieExists s movie_id = true) :
    getMovieRatingsEndpoint s movie_id page page_size =
      .ok ⟨page, page_size,
        (s.ratings.filter (fun r => r.movie_id == movie_id)).length,
        (((sortLe (fun a b : MovieRating => decide (b.created_at ≤ a.created_at))
            (s.ratings.filter (fun r => r.movie_id == movie_id))).drop
          ((page - 1) * page_size)).take page_size)⟩
    ∧ getMoviesEndpoint s none none none page page_size =
      ⟨page, page_size, s.movies.length,
        (((sortLe (fun a b : Movie => strLeBin a.title b.title) s.movies).drop
          ((page - 1) * page_size)).take page_size)⟩ := by
  constructor
  · have hcount : (getMovieRatingStats s movie_id).count =
        (s.ratings.filter (fun r => r.movie_id == movie_id)).length := by
      simp [getMovieRatingStats]
    simp [getMovieRatingsEndpoint, getMovieRatingsSvc, hm, hcount, getMovieRatings,
      ratingColumnLe, directionIsDesc]
    rw [if_pos (show strLower "desc" = "desc" from rfl)]
  · rfl

/-- Witness for C7 amended: page 2 of size 2 over the three scenario
ratings returns the single oldest rating with total_items still 3. -/
theorem claim_C7_witness :
    getMovieRatingsEndpoint ratedStore 1 2 2 = .ok ⟨2, 2, 3, [⟨1, 1, 8, 0⟩]⟩ := by
  have h := (claim_C7_amended ratedStore 1 2 2 (by decide)).1
  rw [h]
  rfl

/-- Claim C8 as stated is false: RatingService.create_rating commits with
no surrounding handler, so an injected commit failure is neither rolled
back nor converted to DatabaseError — the raw driver error escapes with the
failed transaction left in flight. -/
theorem claim_C8_counterexample :
    (ratingServiceCreateRatingTx oneMovieStore 1 5 true).rolledBack = false
    ∧ (ratingServiceCreateRatingTx oneMovieStore 1 5 true).inFlight = true
    ∧ (ratingServiceCreateRatingTx oneMovieStore 1 5 true).result =
        .error (.storageFailure "commit failed") := ⟨rfl, rfl, rfl⟩

/-- Claim C8 amended: rollback-then-DatabaseError on commit failure holds
on every BaseRepository write path (create, update, delete) and on
RatingRepository.create_rating, with the store left unchanged; the two
RatingService write paths (create_rating, update_rating) commit directly
and on commit failure perform no rollback and raise no DatabaseError. -/
theorem claim_C8_amended (s : Store) (insertRow applyRow : Store → Store)
    (modelName idStr : String) (movie_id rating_id : Nat) (score : Int)
    (r : MovieRating) :
    baseCreateTx s insertRow true modelName =
      ⟨s, .error (.databaseError ("Failed to create " ++ modelName)), true, false⟩
    ∧ baseUpdateTx s true applyRow true modelName idStr =
      ⟨s, .error (.databaseError ("Failed to update " ++ modelName ++ " with id " ++ idStr)),
        true, false⟩
    ∧ baseDeleteTx s true applyRow true modelName idStr =
      ⟨s, .error (.databaseError ("Failed to delete " ++ modelName ++ " with id " ++ idStr)),
        true, false⟩
    ∧ (1 ≤ score → score ≤ 10 → movieExists s movie_id = true →
        ratingRepoCreateRatingTx s movie_id score true =
          ⟨s, .error (.databaseError ("Failed to create rating for movie " ++ toString movie_id)),
            true, false⟩)
    ∧ (movieExists s movie_id = true → 1 ≤ score → score ≤ 10 →
        ratingServiceCreateRatingTx s movie_id score true =
          ⟨s, .error (.storageFailure "commit failed"), false, true⟩)
    ∧ (ratingGet s rating_id = some r → 1 ≤ score → score ≤ 10 →
        ratingServiceUpdateRatingTx s rating_id score true =
          ⟨s, .error (.storageFailure "commit failed"), false, true⟩) := by
  refine ⟨rfl, rfl, rfl, ?_, ?_, ?_⟩
  · intro h1 h2 hm
    simp [ratingRepoCreateRatingTx, h1, h2, hm]
  · intro hm h1 h2
    simp [ratingServiceCreateRatingTx, hm, h1, h2]
  · intro hfind h1 h2
    simp [ratingServiceUpdateRatingTx, hfind, h1, h2]

/-- Witness for C8 amended: on the one-movie store the repository rating
path rolls back with a DatabaseError while the service rating path leaves
the failed transaction in flight. -/
theorem claim_C8_witness :
    ratingRepoCreateRatingTx oneMovieStore 1 5 true =
      ⟨oneMovieStore, .error (.databaseError "Failed to create rating for movie 1"), true, false⟩
    ∧ ratingServiceCreateRatingTx oneMovieStore 1 5 true =
      ⟨oneMovieStore, .error (.storageFailure "commit failed"), false, true⟩ := by
  have h := claim_C8_amended oneMovieStore id id "Movie" "1" 1 1 5 ⟨1, 1, 5, 0⟩
  exact ⟨h.2.2.2.1 (by decide) (by decide) (by decide),
    h.2.2.2.2.1 (by decide) (by decide) (by decide)⟩

/-- Helper: membership through the sort-insertion step. -/
theorem mem_insertLe (le : α → α → Bool) (a x : α) (l : List α) :
    x ∈ insertLe le a l ↔ x = a ∨ x ∈ l := by
  induction l with
  | nil => simp [insertLe]
  | cons b l ih =>
    simp only [insertLe]
    split
    · simp
    · simp only [List.mem_cons, ih]
      tauto

/-- Helper: inserting into a sorted list keeps it sorted, for a total
transitive boolean comparison. -/
theorem pairwise_insertLe (le : α → α → Bool)
    (htot : ∀ a b, le a b = true ∨ le b a = true)
    (htrans : ∀ a b c, le a b = true → le b c = true → le a c = true)
    (a : α) (l : List α) (h : l.Pairwise (fun x y => le x y = true)) :
    (insertLe le a l).Pairwise (fun x y => le x y = true) := by
  induction l with
  | nil => simp [insertLe]
  | cons b l ih =>
    rw [List.pairwise_cons] at h
    simp only [insertLe]
    split
    · rename_i hab
      rw [List.pairwise_cons]
      refine ⟨?_, List.pairwise_cons.mpr h⟩
      intro x hx
      rcases List.mem_cons.mp hx with rfl | hx'
      · exact hab
      · exact htrans a b x hab (h.1 x hx')
    · rename_i hab
      have hba : le b a = true := (htot a b).resolve_left (by simpa using hab)
      rw [List.pairwise_cons]
      refine ⟨?_, ih h.2⟩
      intro x hx
      rcases (mem_insertLe le a x l).mp hx with rfl | hx'
      · exact hba
      · exact h.1 x hx'

/-- Helper: the ORDER BY model produces a sorted list for a total
transitive boolean comparison. -/
theorem pairwise_sortLe (le : α → α → Bool)
    (htot : ∀ a b, le a b = true ∨ le b a = true)
    (htrans : ∀ a b c, le a b = true → le b c = true → le a c = true)
    (l : List α) : (sortLe le l).Pairwise (fun x y => le x y = true) := by
  induction l with
  | nil => simp [sortLe]
  | cons a l ih => exact pairwise_insertLe le htot htrans a (sortLe le l) ih

/-- Helper: the BINARY collation is total. -/
theorem charListLe_total : ∀ (a b : List Char),
    charListLe a b = true ∨ charListLe b a = true := by
  intro a
  induction a with
  | nil => intro b; left; rfl
  | cons x xs ih =>
    intro b
    cases b with
    | nil => right; rfl
    | cons y ys =>
      by_cases h1 : x.toNat < y.toNat
      · left; simp [charListLe, h1]
      · by_cases h2 : y.toNat < x.toNat
        · right; simp [charListLe, h2]
        · rcases ih ys with h | h
          · left; simp [charListLe, h1, h2, h]
          · right; simp [charListLe, h1, h2, h]

/-- Helper: the BINARY collation is transitive. -/
theorem charListLe_trans : ∀ (a b c : List Char), charListLe a b = true →
    charListLe b c = true → charListLe a c = true := by
  intro a
  induction a with
  | nil => intro b c _ _; rfl
  | cons x xs ih =>
    intro b c hab hbc
    cases b with
    | nil => simp [charListLe] at hab
    | cons y ys =>
      cases c with
      | nil => simp [charListLe] at hbc
      | cons z zs =>
        simp only [charListLe] at hab hbc ⊢
        by_cases hxy : x.toNat < y.toNat
        · by_cases hyz : y.toNat < z.toNat
          · have hxz : x.toNat < z.toNat := Nat.lt_trans hxy hyz
            simp [hxz]
          · by_cases hzy : z.toNat < y.toNat
            · simp [hyz, hzy] at hbc
            · have hyz' : y.toNat = z.toNat :=
                Nat.le_antisymm (Nat.not_lt.mp hzy) (Nat.not_lt.mp hyz)
              have hxz : x.toNat < z.toNat := hyz' ▸ hxy
              simp [hxz]
        · by_cases hyx : y.toNat < x.toNat
          · simp [hxy, hyx] at hab
          · have hxy' : x.toNat = y.toNat :=
              Nat.le_antisymm (Nat.not_lt.mp hyx) (Nat.not_lt.mp hxy)
            have hab' : charListLe xs ys = true := by simpa [hxy, hyx] using hab
            by_cases hyz : y.toNat < z.toNat
            · have hxz : x.toNat < z.toNat := hxy' ▸ hyz
              simp [hxz]
            · by_cases hzy : z.toNat < y.toNat
              · simp [hyz, hzy] at hbc
              · have hbc' : charListLe ys zs = true := by simpa [hyz, hzy] using hbc
                have hxz : ¬ x.toNat < z.toNat := by omega
                have hzx : ¬ z.toNat < x.toNat := by omega
                simp [hxz, hzx, ih ys zs hab' hbc']

/-- Claim C9 as stated is false: BaseRepository.get_all applies no ORDER BY
when order_by is absent, so genres come back in storage order (zeta before
alpha), not ascending by name. -/
theorem claim_C9_counterexample :
    genreGetAll zetaAlphaStore 0 100 none "asc" =
      [⟨1, "zeta", none⟩, ⟨2, "alpha", none⟩]
    ∧ genreGetAll zetaAlphaStore 0 100 none "asc" ≠
      [⟨2, "alpha", none⟩, ⟨1, "zeta", none⟩]
    ∧ strLeBin "alpha" "zeta" = true := by
  refine ⟨by decide, by decide, by decide⟩

/-- Claim C9 amended: with no order_by the generic get_all returns the
storage-order slice (no default natural-key ordering) for genres and
directors; only the movie listing defaults to title ascending; and the
natural-key ordering does hold when order_by name is passed explicitly.
The same skip/limit against an unchanged store is deterministic since
every listing is a function of the store. -/
theorem claim_C9_amended (s : Store) (skip limit : Nat) (dir : String) :
    genreGetAll s skip limit none dir = (s.genres.drop skip).take limit
    ∧ directorGetAll s skip limit none dir = (s.directors.drop skip).take limit
    ∧ movieGetAllWithDetails s skip limit none dir =
        ((sortLe (fun a b : Movie => strLeBin a.title b.title) s.movies).drop skip).take limit
    ∧ (genreGetAll s skip limit (some "name") "asc").Pairwise
        (fun a b : Genre => strLeBin a.name b.name = true) := by
  refine ⟨rfl, rfl, rfl, ?_⟩
  have hsorted := pairwise_sortLe (fun a b : Genre => strLeBin a.name b.name)
    (fun a b => charListLe_total a.name.data b.name.data)
    (fun a b c hab hbc => charListLe_trans a.name.data b.name.data c.name.data hab hbc)
    s.genres
  have h1 : genreGetAll s skip limit (some "name") "asc" =
      (((sortLe (fun a b : Genre => strLeBin a.name b.name) s.genres).drop skip).take limit) := rfl
  rw [h1]
  exact hsorted.sublist ((List.take_sublist _ _).trans (List.drop_sublist _ _))

/-- Helper: replacing a movie's genre set never touches the movies table,
whichever branch runs. -/
theorem updateMovieGenres_movies (s : Store) (mid : Nat) (gids : List Nat) :
    (updateMovieGenres s mid gids).1.movies = s.movies := by
  unfold updateMovieGenres repoUpdateMovieGenres
  split
  · rfl
  · split
    · rfl
    · split
      · rfl
      · dsimp only
        split
        · rfl
        · rfl

/-- Helper: a successful get implies exists, movies table. -/
theorem movieExists_of_movieGet (s : Store) (mid : Nat) (m : Movie)
    (h : movieGet s mid = some m) : movieExists s mid = true := by
  unfold movieGet at h
  have hp := List.find?_some h
  have hmem := List.mem_of_find?_eq_some h
  unfold movieExists
  exact List.any_eq_true.mpr ⟨m, hmem, hp⟩

/-- Helper: field-by-field effect of BaseRepository.update's setattr loop
on a Movie row: provided values overwrite (the service passes the stripped
title), absent ones keep the stored value. -/
theorem applyMovieUpdate_fields (m : Movie) (title : Option String)
    (director_id : Option Nat) (release_year : Option Int) (cast : Option String) :
    (applyMovieUpdate m (title.map (fun t => pyStrip t)) director_id release_year cast).id = m.id
    ∧ (applyMovieUpdate m (title.map (fun t => pyStrip t)) director_id release_year cast).title =
        (title.map (fun t => pyStrip t)).getD m.title
    ∧ (applyMovieUpdate m (title.map (fun t => pyStrip t)) director_id release_year cast).director_id =
        director_id.orElse (fun _ => m.director_id)
    ∧ (applyMovieUpdate m (title.map (fun t => pyStrip t)) director_id release_year cast).release_year =
        release_year.orElse (fun _ => m.release_year)
    ∧ (applyMovieUpdate m (title.map (fun t => pyStrip t)) director_id release_year cast).cast =
        cast.orElse (fun _ => m.cast) := by
  refine ⟨rfl, ?_, ?_, ?_, ?_⟩
  · cases title <;> rfl
  · cases director_id <;> rfl
  · cases release_year <;> rfl
  · cases cast <;> rfl

/-- Helper: successful row update on the genres table characterized field
by field, plus the frame on other rows. -/
theorem baseUpdateGenre_ok (s : Store) (genre_id : Nat) (g : Genre)
    (nm description : Option String) (s' : Store) (g' : Genre)
    (hfind : s.genres.find? (fun x => x.id == genre_id) = some g)
    (hb : baseUpdateGenre s genre_id (Option.map (fun x => pyStrip x) nm) description =
      (s', .ok g')) :
    g'.id = g.id
    ∧ g'.name = (nm.map (fun x => pyStrip x)).getD g.name
    ∧ g'.description = description.orElse (fun _ => g.description)
    ∧ (∀ x ∈ s.genres, x.id ≠ genre_id → x ∈ s'.genres) := by
  unfold baseUpdateGenre at hb
  simp only [hfind] at hb
  rw [Prod.mk.injEq] at hb
  obtain ⟨hs', hv⟩ := hb
  rw [Except.ok.injEq] at hv
  refine ⟨by rw [← hv], by rw [← hv]; cases nm <;> rfl,
    by rw [← hv]; cases description <;> rfl, ?_⟩
  intro x hx hne
  rw [← hs']
  exact List.mem_map.mpr ⟨x, hx, by simp [hne]⟩

/-- Helper: successful row update on the directors table characterized
field by field, plus the frame on other rows. -/
theorem baseUpdateDirector_ok (s : Store) (director_id : Nat) (d : Director)
    (nm : Option String) (birth_year : Option Int) (description : Option String)
    (s' : Store) (d' : Director)
    (hfind : s.directors.find? (fun x => x.id == director_id) = some d)
    (hb : baseUpdateDirector s director_id (Option.map (fun x => pyStrip x) nm)
      birth_year description = (s', .ok d')) :
    d'.id = d.id
    ∧ d'.name = (nm.map (fun x => pyStrip x)).getD d.name
    ∧ d'.birth_year = birth_year.orElse (fun _ => d.birth_year)
    ∧ d'.description = description.orElse (fun _ => d.description)
    ∧ (∀ x ∈ s.directors, x.id ≠ director_id → x ∈ s'.directors) := by
  unfold baseUpdateDirector at hb
  simp only [hfind] at hb
  rw [Prod.mk.injEq] at hb
  obtain ⟨hs', hv⟩ := hb
  rw [Except.ok.injEq] at hv
  refine ⟨by rw [← hv], by rw [← hv]; cases nm <;> rfl,
    by rw [← hv]; cases birth_year <;> rfl,
    by rw [← hv]; cases description <;> rfl, ?_⟩
  intro x hx hne
  rw [← hs']
  exact List.mem_map.mpr ⟨x, hx, by simp [hne]⟩

/-- Helper: the birth-year guard inside update_director either rejects with
the ValidationError or passes the inner result through. -/
theorem yearGuard_ok (s : Store) (birth_year : Option Int) (s' : Store) (d' : Director)
    (u : Store × Except Err Director)
    (hu : (if (match birth_year with
        | some y => !(decide (1800 ≤ y ∧ y ≤ 2100))
        | none => false) = true then
        (s, Except.error (Err.validation "birth_year"
          "Birth year must be between 1800 and 2100"))
      else u) = (s', .ok d')) : u = (s', .ok d') := by
  cases hcy : (match birth_year with
      | some y => !(decide (1800 ≤ y ∧ y ≤ 2100))
      | none => false) with
  | true =>
    rw [if_pos hcy] at hu
    simp at hu
  | false =>
    rw [if_neg (by rw [hcy]; simp)] at hu
    exact hu

/-- Claim C10: on every successful partial update of a Movie, Genre or
Director, each field supplied as a non-null value is overwritten (titles
and names after stripping) and each field supplied as null keeps its stored
value — so no update can clear a stored optional field to absent — and
every other row of the table survives unchanged. -/
theorem claim_C10_partial_update_frame :
    (∀ (s : Store) (movie_id : Nat) (m : Movie) (title : Option String)
        (director_id : Option Nat) (release_year : Option Int) (cast : Option String)
        (genre_ids : Option (List Nat)) (s' : Store) (m' : Movie),
      movieGet s movie_id = some m →
      updateMovie s movie_id title director_id release_year cast genre_ids = (s', .ok m') →
      m'.id = m.id
      ∧ m'.title = (title.map (fun t => pyStrip t)).getD m.title
      ∧ m'.director_id = director_id.orElse (fun _ => m.director_id)
      ∧ m'.release_year = release_year.orElse (fun _ => m.release_year)
      ∧ m'.cast = cast.orElse (fun _ => m.cast)
      ∧ (∀ x ∈ s.movies, x.id ≠ movie_id → x ∈ s'.movies))
    ∧ (∀ (s : Store) (genre_id : Nat) (g : Genre) (name description : Option String)
        (s' : Store) (g' : Genre),
      s.genres.find? (fun x => x.id == genre_id) = some g →
      updateGenre s genre_id name description = (s', .ok g') →
      g'.id = g.id
      ∧ g'.name = (name.map (fun n => pyStrip n)).getD g.name
      ∧ g'.description = description.orElse (fun _ => g.description)
      ∧ (∀ x ∈ s.genres, x.id ≠ genre_id → x ∈ s'.genres))
    ∧ (∀ (s : Store) (director_id : Nat) (d : Director) (name : Option String)
        (birth_year : Option Int) (description : Option String) (s' : Store) (d' : Director),
      s.directors.find? (fun x => x.id == director_id) = some d →
      updateDirector s director_id name birth_year description = (s', .ok d') →
      d'.id = d.id
      ∧ d'.name = (name.map (fun n => pyStrip n)).getD d.name
      ∧ d'.birth_year = birth_year.orElse (fun _ => d.birth_year)
      ∧ d'.description = description.orElse (fun _ => d.description)
      ∧ (∀ x ∈ s.directors, x.id ≠ director_id → x ∈ s'.directors)) := by
  refine ⟨?_, ?_, ?_⟩
  · intro s movie_id m title director_id release_year cast genre_ids s' m' hm hupd
    have hex : movieExists s movie_id = true := movieExists_of_movieGet s movie_id m hm
    unfold updateMovie at hupd
    rw [if_neg (by simp [hex])] at hupd
    cases hcd : (match director_id with
        | some d => !(directorExists s d)
        | none => false) with
    | true =>
      rw [if_pos hcd] at hupd
      simp at hupd
    | false =>
    rw [if_neg (by rw [hcd]; simp)] at hupd
    cases hcy : (match release_year with
        | some y => !(decide (1888 ≤ y ∧ y ≤ 2100))
        | none => false) with
    | true =>
      rw [if_pos hcy] at hupd
      simp at hupd
    | false =>
    rw [if_neg (by rw [hcy]; simp)] at hupd
    rcases hb : baseUpdateMovie s movie_id (title.map (fun t => pyStrip t))
        director_id release_year cast with ⟨s1, res⟩
    have hbu := hb
    unfold baseUpdateMovie at hbu
    simp only [hm] at hbu
    rw [Prod.mk.injEq] at hbu
    obtain ⟨hs1, hres⟩ := hbu
    rw [hb] at hupd
    subst hres
    have hfields := applyMovieUpdate_fields m title director_id release_year cast
    have hs1movies : s1.movies = s.movies.map (fun x => if x.id == movie_id then
        applyMovieUpdate m (title.map (fun t => pyStrip t)) director_id release_year cast
      else x) := by
      rw [← hs1]
    cases genre_ids with
    | none =>
      rw [Prod.mk.injEq] at hupd
      obtain ⟨hs', hv⟩ := hupd
      rw [Except.ok.injEq] at hv
      rw [hv] at hfields
      refine ⟨hfields.1, hfields.2.1, hfields.2.2.1, hfields.2.2.2.1,
        hfields.2.2.2.2, ?_⟩
      intro x hx hne
      rw [← hs', hs1movies]
      exact List.mem_map.mpr ⟨x, hx, by simp [hne]⟩
    | some gids =>
      rcases hr : (updateMovieGenres s1 movie_id gids).2 with e | v
      all_goals simp only [hr] at hupd
      · simp at hupd
      · rw [Prod.mk.injEq] at hupd
        obtain ⟨hs', hv⟩ := hupd
        rw [Except.ok.injEq] at hv
        rw [hv] at hfields
        refine ⟨hfields.1, hfields.2.1, hfields.2.2.1, hfields.2.2.2.1,
          hfields.2.2.2.2, ?_⟩
        intro x hx hne
        rw [← hs', updateMovieGenres_movies, hs1movies]
        exact List.mem_map.mpr ⟨x, hx, by simp [hne]⟩
  · intro s genre_id g name description s' g' hfind hupd
    have hex : genreExists s genre_id = true := by
      have hp := List.find?_some hfind
      have hmem := List.mem_of_find?_eq_some hfind
      exact List.any_eq_true.mpr ⟨g, hmem, hp⟩
    have hfinish : ∀ nm : Option String,
        baseUpdateGenre s genre_id (Option.map (fun x => pyStrip x) nm) description =
          (s', .ok g') →
        g'.id = g.id
        ∧ g'.name = (nm.map (fun x => pyStrip x)).getD g.name
        ∧ g'.description = description.orElse (fun _ => g.description)
        ∧ (∀ x ∈ s.genres, x.id ≠ genre_id → x ∈ s'.genres) :=
      fun nm hb => baseUpdateGenre_ok s genre_id g nm description s' g' hfind hb
    cases name with
    | none =>
      unfold updateGenre at hupd
      rw [if_neg (by simp [hex])] at hupd
      exact hfinish none hupd
    | some n =>
      unfold updateGenre at hupd
      rw [if_neg (by simp [hex])] at hupd
      rcases hgbf : genreGetByField s "name" (pyStrip n) with e | og
      · exact absurd hgbf (by simp [genreGetByField, genreHasField])
      · rcases og with _ | gg
        · simp only [hgbf] at hupd
          exact hfinish (some n) hupd
        · by_cases hgid : gg.id = genre_id
          · simp only [hgbf] at hupd
            rw [if_neg (by simp [hgid])] at hupd
            exact hfinish (some n) hupd
          · simp only [hgbf] at hupd
            rw [if_pos (by simp [hgid])] at hupd
            simp at hupd
  · intro s director_id d name birth_year description s' d' hfind hupd
    have hex : directorExists s director_id = true := by
      have hp := List.find?_some hfind
      have hmem := List.mem_of_find?_eq_some hfind
      exact List.any_eq_true.mpr ⟨d, hmem, hp⟩
    have hfinish : ∀ nm : Option String,
        baseUpdateDirector s director_id (Option.map (fun x => pyStrip x) nm)
          birth_year description = (s', .ok d') →
        d'.id = d.id
        ∧ d'.name = (nm.map (fun x => pyStrip x)).getD d.name
        ∧ d'.birth_year = birth_year.orElse (fun _ => d.birth_year)
        ∧ d'.description = description.orElse (fun _ => d.description)
        ∧ (∀ x ∈ s.directors, x.id ≠ director_id → x ∈ s'.directors) :=
      fun nm hb => baseUpdateDirector_ok s director_id d nm birth_year description s' d' hfind hb
    cases name with
    | none =>
      unfold updateDirector at hupd
      rw [if_neg (by simp [hex])] at hupd
      exact hfinish none (yearGuard_ok s birth_year s' d' _ hupd)
    | some n =>
      unfold updateDirector at hupd
      rw [if_neg (by simp [hex])] at hupd
      rcases hgbf : directorGetByField s "name" (pyStrip n) with e | od
      · exact absurd hgbf (by simp [directorGetByField, directorHasField])
      · rcases od with _ | dd
        · simp only [hgbf] at hupd
          exact hfinish (some n) (yearGuard_ok s birth_year s' d' _ hupd)
        · by_cases hgid : dd.id = director_id
          · simp only [hgbf] at hupd
            rw [if_neg (by simp [hgid])] at hupd
            exact hfinish (some n) (yearGuard_ok s birth_year s' d' _ hupd)
          · simp only [hgbf] at hupd
            rw [if_pos (by simp [hgid])] at hupd
            simp at hupd

/-- Witness for C10: updating only the title of the fully populated movie
strips the new title and keeps director, year and cast; the stored year
cannot be cleared by omitting it. -/
theorem claim_C10_witness :
    (Movie.mk 1 "New" (some 1) (some 1999) (some "oc")).title = pyStrip " New "
    ∧ (Movie.mk 1 "New" (some 1) (some 1999) (some "oc")).release_year = some 1999
    ∧ (Movie.mk 1 "New" (some 1) (some 1999) (some "oc")).cast = some "oc" := by
  have h := claim_C10_partial_update_frame.1 updateFrameStore 1
    ⟨1, "Old Title", some 1, some 1999, some "oc"⟩ (some " New ") none none none none
    (updateMovie updateFrameStore 1 (some " New ") none none none none).1
    ⟨1, "New", some 1, some 1999, some "oc"⟩ (by rfl) (by rfl)
  exact ⟨h.2.1, h.2.2.2.1, h.2.2.2.2.1⟩

end MovieApp
